import Mathlib

/-!
Verification of the routing core of `optimizador-rutas-puno` (solver.py and
the optimization entry point of main.py) against its natural-language
specification.

The solver delegates search to the OR-Tools constraint-programming engine.
The embedding keeps every piece of repository code as an executable Lean
definition; the external engine's `SolveWithParameters` call is represented
by an `Option RouteSolution` argument together with the engine's contract,
`FeasibleSolution`: any assignment the engine returns satisfies every
constraint the repository code posts on the routing model (the per-node
cumulative-time window ranges, the transit relation of the `Time` dimension
with its slack bound 900 and capacity 86400, and the route structure fixed
by `RoutingIndexManager(len(matrix), 1, depot=0)`).

Seconds are `Int`; Python `//` and `%` on these values always use positive
literal divisors, where they agree with `Int.ediv`/`Int.emod`, so `/` and `%`
below are exact translations.
-/

/-- `datetime.time` as the repository uses it: hour/minute/second fields. -/
structure PyTime where
  hour : Int
  minute : Int
  second : Int
deriving DecidableEq, Inhabited

/-- `models.Parada` restricted to the fields the solver reads. -/
structure Parada where
  id : Int
  nombre : String
  lat : Float
  lng : Float
  ventana_inicio : PyTime
  ventana_fin : PyTime
  tiempo_servicio_min : Int

instance : Inhabited Parada :=
  ⟨{ id := 0, nombre := "", lat := 0, lng := 0,
     ventana_inicio := ⟨0, 0, 0⟩, ventana_fin := ⟨0, 0, 0⟩,
     tiempo_servicio_min := 0 }⟩

/-- solver.py `time_to_seconds`. -/
def time_to_seconds (t : PyTime) : Int :=
  t.hour * 3600 + t.minute * 60 + t.second

/-- Python `f"{m:02d}"` for the values that occur here. -/
def pad2 (m : Int) : String :=
  if 0 ≤ m ∧ m < 10 then "0" ++ toString m else toString m

/-- solver.py `seconds_to_time_str`. -/
def seconds_to_time_str (seconds_from_midnight : Int) : String :=
  let hours := seconds_from_midnight / 3600
  let minutes := (seconds_from_midnight % 3600) / 60
  let period := if hours ≥ 12 then "PM" else "AM"
  let hours := if hours = 0 then 12 else hours
  let hours := if hours > 12 then hours - 12 else hours
  pad2 hours ++ ":" ++ pad2 minutes ++ " " ++ period

/-- solver.py `seconds_to_duration_str`. -/
def seconds_to_duration_str (total_seconds : Int) : String :=
  if total_seconds < 60 then toString total_seconds ++ " seg"
  else
    let hours := total_seconds / 3600
    let minutes := (total_seconds % 3600) / 60
    if hours > 0 then toString hours ++ " h " ++ pad2 minutes ++ " min"
    else toString minutes ++ " min"

/-- The JSON body a successful Mapbox Matrix call decodes to: the fields
`get_real_time_matrix` reads (`durations` already truncated to seconds). -/
structure MatrixPayload where
  code : String
  message : String
  durations : List (List Int)

/-- The observable outcomes of the HTTP call inside `get_real_time_matrix`:
a decoded 200 response, a non-success status (`raise_for_status`), a body
with no usable `durations` field (KeyError), or an `httpx` timeout. -/
inductive MatrixResponse where
  | success (payload : MatrixPayload)
  | httpStatusError (status : Nat)
  | malformedPayload
  | timeout

/-- The exceptions `solve_vrp` can let escape, one constructor per raise
site of solver.py. `invalidModel` is modelled from the spec: the spec's
error taxonomy names an `InvalidModelError` for malformed inputs, but the
source defines no such exception class and no raise site produces it; the
constructor exists only so that statements about that taxonomy can be
written and compared with what the code does. -/
inductive SolverError where
  | noSolution (msg : String)
  | mapboxHttp (status : Nat)
  | apiNotOk (message : String)
  | payloadError
  | timeoutError
  | invalidModel
deriving DecidableEq

/-- The message of solver.py line 151. -/
def noSolutionMsg : String :=
  "No se encontró una ruta. Es imposible cumplir con todas las ventanas de tiempo. Intenta con menos paradas o revisa sus horarios."

/-- solver.py `get_real_time_matrix`: the request is built from the paradas'
coordinates; the response handling is translated branch by branch. A body
whose `code` is not `"Ok"` raises (a generic `Exception` in the source); an
HTTP error status raises after `raise_for_status`; a malformed body or a
timeout re-raises through the bare `except Exception: raise`. -/
def get_real_time_matrix (paradas : List Parada) (resp : MatrixResponse) :
    Except SolverError (List (List Int)) :=
  match resp with
  | MatrixResponse.success payload =>
      if payload.code = "Ok" then Except.ok payload.durations
      else Except.error (SolverError.apiNotOk payload.message)
  | MatrixResponse.httpStatusError status => Except.error (SolverError.mapboxHttp status)
  | MatrixResponse.malformedPayload => Except.error SolverError.payloadError
  | MatrixResponse.timeout => Except.error SolverError.timeoutError

/-- The `data` dict built in step 1 of `solve_vrp`. -/
structure RoutingData where
  time_windows : List (Int × Int)
  service_times : List Int
  time_matrix : List (List Int)

/-- Step 1 of `solve_vrp`: windows in seconds and service times in seconds,
in parada order, plus the travel-time matrix of step 2. -/
def buildData (paradas : List Parada) (matrix : List (List Int)) : RoutingData :=
  { time_windows := paradas.map fun p =>
      (time_to_seconds p.ventana_inicio, time_to_seconds p.ventana_fin)
    service_times := paradas.map fun p => p.tiempo_servicio_min * 60
    time_matrix := matrix }

/-- solver.py `time_callback`, the transit evaluator registered both as the
arc cost of all vehicles and as the transit of the `Time` dimension:
matrix travel time plus the service time of the departure node. -/
def time_callback (data : RoutingData) (from_node to_node : Nat) : Int :=
  (data.time_matrix.getD from_node []).getD to_node 0 +
    data.service_times.getD from_node 0

/-- The cumulative-time range `SetRange` posts on a node: its window when the
node has one, otherwise only the dimension's `[0, capacity]` domain. -/
def nodeWindow (data : RoutingData) (v : Nat) : Int × Int :=
  data.time_windows.getD v (0, 86400)

/-- An assignment of the routing model's decision variables as the extraction
loop reads it: the chain of nodes from `routing.Start(0)` up to (not
including) the end index, the value of the `Time` cumulative variable at each
of those indices, and its value at the end index. -/
structure RouteSolution where
  route : List Nat
  cumul : List Int
  endCumul : Int

/-- The constraints `solve_vrp` posts on the routing model, i.e. OR-Tools'
contract for any assignment `SolveWithParameters` returns: the route starts
at depot 0 and visits every node of the manager's range exactly once; every
cumulative value lies in the range `SetRange` posted for its node and in the
dimension's `[0, 86400]` domain; consecutive cumulative values differ by the
registered transit plus a slack in `[0, 900]`; and the end index's
cumulative value follows from the last visited node the same way. -/
def FeasibleSolution (data : RoutingData) (s : RouteSolution) : Prop :=
  s.route.length = data.time_matrix.length ∧
  s.cumul.length = data.time_matrix.length ∧
  s.route.getD 0 0 = 0 ∧
  (∀ p, p < s.route.length → s.route.getD p 0 < data.time_matrix.length) ∧
  (∀ v, v < data.time_matrix.length → v ∈ s.route) ∧
  (∀ p, p < s.route.length →
    (nodeWindow data (s.route.getD p 0)).1 ≤ s.cumul.getD p 0 ∧
    s.cumul.getD p 0 ≤ (nodeWindow data (s.route.getD p 0)).2) ∧
  (∀ p, p < s.route.length → 0 ≤ s.cumul.getD p 0 ∧ s.cumul.getD p 0 ≤ 86400) ∧
  (∀ p, p < s.route.length → p + 1 < s.route.length →
    s.cumul.getD p 0 + time_callback data (s.route.getD p 0) (s.route.getD (p + 1) 0)
      ≤ s.cumul.getD (p + 1) 0 ∧
    s.cumul.getD (p + 1) 0
      ≤ s.cumul.getD p 0 + time_callback data (s.route.getD p 0) (s.route.getD (p + 1) 0) + 900) ∧
  (0 < s.route.length →
    s.cumul.getD (s.route.length - 1) 0 +
        time_callback data (s.route.getD (s.route.length - 1) 0) 0 ≤ s.endCumul ∧
    s.endCumul ≤ s.cumul.getD (s.route.length - 1) 0 +
        time_callback data (s.route.getD (s.route.length - 1) 0) 0 + 900 ∧
    0 ≤ s.endCumul ∧ s.endCumul ≤ 86400)

instance (data : RoutingData) (s : RouteSolution) : Decidable (FeasibleSolution data s) := by
  unfold FeasibleSolution; infer_instance

/-- One iteration of the extraction loop of `solve_vrp`, in numbers: the node,
its arrival (the cumulative value), its departure (arrival + service), and
the reported travel time (arrival − previous departure). -/
structure ItineraryRow where
  node : Nat
  arrival : Int
  departure : Int
  travel : Int
deriving DecidableEq, Inhabited

/-- The extraction loop of `solve_vrp`, threading `last_departure_time_seconds`
(initialised to 0) along the route. -/
def itineraryRowsAux (service_times : List Int) :
    List Nat → List Int → Int → List ItineraryRow
  | [], _, _ => []
  | _ :: _, [], _ => []
  | n :: ns, a :: as, lastDep =>
      let st := service_times.getD n 0
      { node := n, arrival := a, departure := a + st, travel := a - lastDep } ::
        itineraryRowsAux service_times ns as (a + st)

/-- The extraction loop applied to a solution: one row per visited index of
the route, starting with `last_departure_time_seconds = 0`. -/
def itineraryRows (data : RoutingData) (s : RouteSolution) : List ItineraryRow :=
  itineraryRowsAux data.service_times s.route s.cumul 0

/-- One element of the `itinerary` list `solve_vrp` returns. -/
structure RouteStop where
  parada : Parada
  arrival_time : String
  departure_time : String
  travel_time_to_stop : String

instance : Inhabited RouteStop :=
  ⟨{ parada := default, arrival_time := "", departure_time := "",
     travel_time_to_stop := "" }⟩

/-- The dict `solve_vrp` returns on success. -/
structure VrpResult where
  stops : List RouteStop
  total_duration_seconds : Int
  total_duration_str : String

/-- solver.py `solve_vrp`. `resp` is the Mapbox response the HTTP call inside
`get_real_time_matrix` observes; `search` is the assignment
`routing.SolveWithParameters` returns (`none` when the engine finds no
solution). The control flow mirrors the source: the matrix is fetched (and
any provider exception propagates, step 2) before the routing model exists;
a missing solution raises `NoSolutionError` (section 7); otherwise the
itinerary is extracted row by row and the total duration is the end index's
cumulative value minus the start index's. -/
def solve_vrp (paradas : List Parada) (resp : MatrixResponse)
    (search : Option RouteSolution) : Except SolverError VrpResult :=
  match get_real_time_matrix paradas resp with
  | Except.error e => Except.error e
  | Except.ok matrix =>
      let data := buildData paradas matrix
      match search with
      | none => Except.error (SolverError.noSolution noSolutionMsg)
      | some s =>
          let rows := itineraryRows data s
          let stops := rows.map fun r =>
            { parada := paradas.getD r.node default
              arrival_time := seconds_to_time_str r.arrival
              departure_time := seconds_to_time_str r.departure
              travel_time_to_stop := seconds_to_duration_str r.travel : RouteStop }
          let total := s.endCumul - s.cumul.getD 0 0
          Except.ok { stops := stops, total_duration_seconds := total,
                      total_duration_str := seconds_to_duration_str total }

/-- main.py `optimizar_ruta`: the synthetic start stop built from the request
coordinates, window 00:01 to 23:59 and zero service time. -/
def parada_inicio (start_lat start_lng : Float) : Parada :=
  { id := 0, nombre := "Inicio (Usuario)", lat := start_lat, lng := start_lng,
    ventana_inicio := ⟨0, 1, 0⟩, ventana_fin := ⟨23, 59, 0⟩,
    tiempo_servicio_min := 0 }

/-- main.py `optimizar_ruta`: the stop list handed to `solve_vrp`, start
stop first. -/
def paradas_totales (inicio : Parada) (destinos : List Parada) : List Parada :=
  [inicio] ++ destinos

/-! ## Concrete instances used by witnesses and counterexamples -/

/-- The synthetic start stop as `optimizar_ruta` builds it at the origin. -/
def exDepot : Parada :=
  { id := 0, nombre := "Inicio (Usuario)", lat := 0, lng := 0,
    ventana_inicio := ⟨0, 1, 0⟩, ventana_fin := ⟨23, 59, 0⟩,
    tiempo_servicio_min := 0 }

/-- A delivery stop with window 09:00 to 12:00 and 30 minutes of service. -/
def exStop : Parada :=
  { id := 1, nombre := "Mercado Central", lat := 0, lng := 0,
    ventana_inicio := ⟨9, 0, 0⟩, ventana_fin := ⟨12, 0, 0⟩,
    tiempo_servicio_min := 30 }

def exParadas : List Parada := [exDepot, exStop]

/-- 600 seconds of travel each way between the two stops. -/
def exMatrix : List (List Int) := [[0, 600], [600, 0]]

def exData : RoutingData := buildData exParadas exMatrix

/-- A model-feasible assignment: leave the start at 08:50, reach the stop at
09:00 exactly (slack 0), serve 30 min, return arrival at the end index. -/
def exSol : RouteSolution :=
  { route := [0, 1], cumul := [31800, 32400], endCumul := 34800 }

def exResp : MatrixResponse :=
  MatrixResponse.success { code := "Ok", message := "", durations := exMatrix }

/-- The result `solve_vrp` computes on the instance above. -/
def exResult : VrpResult :=
  { stops :=
      [{ parada := exDepot, arrival_time := "08:50 AM", departure_time := "08:50 AM",
         travel_time_to_stop := "8 h 50 min" },
       { parada := exStop, arrival_time := "09:00 AM", departure_time := "09:30 AM",
         travel_time_to_stop := "10 min" }]
    total_duration_seconds := 3000
    total_duration_str := "50 min" }

/-- A stop whose window is inverted: opens at 10:00, closes at 08:00. -/
def badParada : Parada :=
  { id := 1, nombre := "Ventana invertida", lat := 0, lng := 0,
    ventana_inicio := ⟨10, 0, 0⟩, ventana_fin := ⟨8, 0, 0⟩,
    tiempo_servicio_min := 30 }

def badParadas : List Parada := [exDepot, badParada]

def badMatrix : List (List Int) := [[0, 300], [300, 0]]

def badResp : MatrixResponse :=
  MatrixResponse.success { code := "Ok", message := "", durations := badMatrix }

/-! ## Helper lemmas -/

theorem listGetD_map {α β : Type} (f : α → β) (l : List α) (p : Nat) (d : α) (d2 : β)
    (h : p < l.length) : (l.map f).getD p d2 = f (l.getD p d) := by
  rw [List.getD_eq_getElem _ _ (by simpa using h), List.getD_eq_getElem _ _ h]
  simp

theorem itineraryRowsAux_length (sts : List Int) :
    ∀ (rt : List Nat) (cm : List Int) (d : Int),
      (itineraryRowsAux sts rt cm d).length = min rt.length cm.length := by
  intro rt
  induction rt with
  | nil => intro cm d; simp [itineraryRowsAux]
  | cons n ns ih =>
    intro cm d
    cases cm with
    | nil => simp [itineraryRowsAux]
    | cons a as =>
      simp only [itineraryRowsAux, List.length_cons, ih]
      omega

theorem itineraryRowsAux_getD (sts : List Int) :
    ∀ (rt : List Nat) (cm : List Int) (d : Int) (p : Nat),
      p < rt.length → p < cm.length →
      (itineraryRowsAux sts rt cm d).getD p default =
        { node := rt.getD p 0
          arrival := cm.getD p 0
          departure := cm.getD p 0 + sts.getD (rt.getD p 0) 0
          travel := cm.getD p 0 -
            (if p = 0 then d
             else cm.getD (p - 1) 0 + sts.getD (rt.getD (p - 1) 0) 0) } := by
  intro rt
  induction rt with
  | nil => intro cm d p h1 h2; simp at h1
  | cons n ns ih =>
    intro cm d p h1 h2
    cases cm with
    | nil => simp at h2
    | cons a as =>
      cases p with
      | zero => simp [itineraryRowsAux]
      | succ q =>
        have hq1 : q < ns.length := by simpa using h1
        have hq2 : q < as.length := by simpa using h2
        have hih := ih as (a + sts.getD n 0) q hq1 hq2
        simp only [itineraryRowsAux, List.getD_cons_succ, hih]
        cases q with
        | zero => simp
        | succ r => simp

/-- Provider failure short-circuit: the exception of `get_real_time_matrix`
propagates out of `solve_vrp` in step 2, before the routing model of step 3
exists, whatever the engine would have answered. -/
theorem solve_vrp_provider_error (paradas : List Parada) (resp : MatrixResponse)
    (e : SolverError) (search : Option RouteSolution)
    (herr : get_real_time_matrix paradas resp = Except.error e) :
    solve_vrp paradas resp search = Except.error e := by
  simp [solve_vrp, herr]

/-- Section 7 of `solve_vrp`: no solution from the engine raises
`NoSolutionError` with its fixed message. -/
theorem solve_vrp_none (paradas : List Parada) (resp : MatrixResponse)
    (matrix : List (List Int))
    (hm : get_real_time_matrix paradas resp = Except.ok matrix) :
    solve_vrp paradas resp none = Except.error (SolverError.noSolution noSolutionMsg) := by
  simp [solve_vrp, hm]

/-- The successful branch of `solve_vrp` in closed form: the itinerary is the
formatted extraction rows and the total is the end cumul minus the start
cumul. -/
theorem solve_vrp_some (paradas : List Parada) (resp : MatrixResponse)
    (matrix : List (List Int)) (s : RouteSolution)
    (hm : get_real_time_matrix paradas resp = Except.ok matrix) :
    solve_vrp paradas resp (some s) =
      Except.ok
        { stops := (itineraryRows (buildData paradas matrix) s).map fun r =>
            { parada := paradas.getD r.node default
              arrival_time := seconds_to_time_str r.arrival
              departure_time := seconds_to_time_str r.departure
              travel_time_to_stop := seconds_to_duration_str r.travel }
          total_duration_seconds := s.endCumul - s.cumul.getD 0 0
          total_duration_str := seconds_to_duration_str (s.endCumul - s.cumul.getD 0 0) } := by
  simp [solve_vrp, hm]

/-- Every entry of the example matrix read through `getD` is non-negative
(out-of-range reads default to 0). -/
theorem exMatrix_nonneg (i j : Nat) : 0 ≤ (exMatrix.getD i []).getD j 0 := by
  rcases i with _ | _ | i
  · rcases j with _ | _ | j <;> simp [exMatrix, List.getD]
  · rcases j with _ | _ | j <;> simp [exMatrix, List.getD]
  · simp [exMatrix, List.getD]

/-- On the example model no feasible assignment can leave the start earlier
than 30900 s (08:35): the stop's window opens at 32400 and the dimension
allows at most 900 s of slack on the single leg of 600 s, so the depot's own
window floor of 60 s is unreachable. -/
theorem exData_start_lower_bound (s : RouteSolution)
    (hfeas : FeasibleSolution exData s) : 30900 ≤ s.cumul.getD 0 0 := by
  obtain ⟨hrl, hcl, hr0, hrange, hcov, hwin, hdom, htrans, hend⟩ := hfeas
  have hn : exData.time_matrix.length = 2 := rfl
  have h1 : (1 : Nat) ∈ s.route := hcov 1 (by omega)
  obtain ⟨i, hi, hgi⟩ := List.getElem_of_mem h1
  have hgd : s.route.getD i 0 = 1 := by
    rw [List.getD_eq_getElem _ _ hi, hgi]
  have hi1 : i = 1 := by
    have hi2 : i < 2 := by omega
    interval_cases i
    · rw [hr0] at hgd; exact absurd hgd (by decide)
    · rfl
  subst hi1
  have hw := (hwin 1 (by omega)).1
  rw [hgd] at hw
  have hnw : (nodeWindow exData 1).1 = 32400 := rfl
  rw [hnw] at hw
  have ht := (htrans 0 (by omega) (by omega)).2
  rw [hr0, hgd] at ht
  have htc : time_callback exData 0 1 = 600 := rfl
  rw [htc] at ht
  have ht2 : s.cumul.getD 1 0 ≤ s.cumul.getD 0 0 + 600 + 900 := by
    simpa using ht
  omega

/-! ## Claims -/

/-- Claim C1: for every successful solve and every visit in the returned
itinerary, the concrete arrival time at that visit's stop lies within the
stop's declared time window — `window_start ≤ arrival ≤ window_end` in
seconds since midnight, with the windows taken from the visited Parada's
`ventana_inicio`/`ventana_fin` — and the itinerary's arrival string is the
rendering of exactly that arrival value. -/
theorem window_satisfaction (paradas : List Parada) (resp : MatrixResponse)
    (matrix : List (List Int)) (s : RouteSolution) (res : VrpResult) (p : Nat)
    (hm : get_real_time_matrix paradas resp = Except.ok matrix)
    (hlen : matrix.length = paradas.length)
    (hsolve : solve_vrp paradas resp (some s) = Except.ok res)
    (hfeas : FeasibleSolution (buildData paradas matrix) s)
    (hp : p < s.route.length) :
    time_to_seconds ((paradas.getD (s.route.getD p 0) default).ventana_inicio)
        ≤ s.cumul.getD p 0 ∧
    s.cumul.getD p 0
        ≤ time_to_seconds ((paradas.getD (s.route.getD p 0) default).ventana_fin) ∧
    (res.stops.getD p default).arrival_time = seconds_to_time_str (s.cumul.getD p 0) := by
  obtain ⟨hrl, hcl, hr0, hrange, hcov, hwin, hdom, htrans, hend⟩ := hfeas
  have hnode : s.route.getD p 0 < paradas.length := hlen ▸ hrange p hp
  have hwinmap : nodeWindow (buildData paradas matrix) (s.route.getD p 0)
      = (time_to_seconds ((paradas.getD (s.route.getD p 0) default).ventana_inicio),
         time_to_seconds ((paradas.getD (s.route.getD p 0) default).ventana_fin)) := by
    unfold nodeWindow buildData
    exact listGetD_map _ paradas _ default _ hnode
  have hw := hwin p hp
  rw [hwinmap] at hw
  refine ⟨hw.1, hw.2, ?_⟩
  rw [solve_vrp_some paradas resp matrix s hm] at hsolve
  have hres := (Except.ok.injEq _ _).mp hsolve.symm
  subst hres
  have hplen : p < (itineraryRows (buildData paradas matrix) s).length := by
    unfold itineraryRows
    rw [itineraryRowsAux_length]
    omega
  have hrow := itineraryRowsAux_getD (buildData paradas matrix).service_times
    s.route s.cumul 0 p hp (by omega)
  simp only
  rw [listGetD_map _ _ _ default _ hplen]
  unfold itineraryRows at *
  rw [hrow]

/-- Witness for C1 on the concrete two-stop instance: the start is visited at
31800 s inside its window [60, 86340] and the result renders that arrival. -/
theorem window_satisfaction_witness :
    time_to_seconds ((exParadas.getD (exSol.route.getD 0 0) default).ventana_inicio)
        ≤ exSol.cumul.getD 0 0 ∧
    exSol.cumul.getD 0 0
        ≤ time_to_seconds ((exParadas.getD (exSol.route.getD 0 0) default).ventana_fin) ∧
    (exResult.stops.getD 0 default).arrival_time
        = seconds_to_time_str (exSol.cumul.getD 0 0) :=
  window_satisfaction exParadas exResp exMatrix exSol exResult 0 rfl rfl rfl
    (by decide) (by decide)

/-- Claim C2, counterexample: a stop whose window is inverted (opens 10:00,
closes 08:00) is a malformed model, yet `solve_vrp` does not fail before the
search with any invalid-model error — it runs the search and raises
`NoSolutionError`. -/
theorem invalid_model_cex :
    time_to_seconds badParada.ventana_fin < time_to_seconds badParada.ventana_inicio ∧
    solve_vrp badParadas badResp none = Except.error (SolverError.noSolution noSolutionMsg) ∧
    SolverError.noSolution noSolutionMsg ≠ SolverError.invalidModel :=
  ⟨by decide, rfl, by decide⟩

/-- Claim C2 as amended: the solver performs no model validation and defines
no invalid-model error, so no input ever produces one; a window with
start > end merely makes the posted constraints unsatisfiable, so the solve
returns no solution and `solve_vrp` raises `NoSolutionError` after the
search. -/
theorem no_model_validation :
    (∀ (paradas : List Parada) (resp : MatrixResponse) (search : Option RouteSolution),
      solve_vrp paradas resp search ≠ Except.error SolverError.invalidModel) ∧
    (∀ s : RouteSolution, ¬ FeasibleSolution (buildData badParadas badMatrix) s) ∧
    solve_vrp badParadas badResp none = Except.error (SolverError.noSolution noSolutionMsg) := by
  refine ⟨?_, ?_, rfl⟩
  · intro paradas resp search h
    cases resp with
    | success payload =>
        by_cases hc : payload.code = "Ok"
        · cases search <;> simp [solve_vrp, get_real_time_matrix, hc] at h
        · simp [solve_vrp, get_real_time_matrix, hc] at h
    | httpStatusError status => simp [solve_vrp, get_real_time_matrix] at h
    | malformedPayload => simp [solve_vrp, get_real_time_matrix] at h
    | timeout => simp [solve_vrp, get_real_time_matrix] at h
  · intro s hfeas
    obtain ⟨hrl, hcl, hr0, hrange, hcov, hwin, hdom, htrans, hend⟩ := hfeas
    have hn : (buildData badParadas badMatrix).time_matrix.length = 2 := by decide
    have h1 : (1 : Nat) ∈ s.route := hcov 1 (by omega)
    obtain ⟨i, hi, hgi⟩ := List.getElem_of_mem h1
    have hgd : s.route.getD i 0 = 1 := by
      rw [List.getD_eq_getElem _ _ hi, hgi]
    have hw := hwin i hi
    rw [hgd] at hw
    have hnw : nodeWindow (buildData badParadas badMatrix) 1 = (36000, 28800) := by decide
    rw [hnw] at hw
    simp only at hw
    omega

/-- Claim C3: whenever the matrix provider fails (HTTP error status,
malformed payload, non-Ok payload, or timeout), `solve_vrp` surfaces that
failure unchanged whatever the search would return — so no routing model is
consulted — and the failure is never the business-level `NoSolutionError`
(nor an invalid-model error). -/
theorem provider_error_isolation (paradas : List Parada) (resp : MatrixResponse)
    (e : SolverError)
    (herr : get_real_time_matrix paradas resp = Except.error e) :
    (∀ search, solve_vrp paradas resp search = Except.error e) ∧
    (∀ msg, e ≠ SolverError.noSolution msg) ∧
    e ≠ SolverError.invalidModel := by
  refine ⟨fun search => solve_vrp_provider_error paradas resp e search herr, ?_, ?_⟩
  · intro msg
    cases resp with
    | success payload =>
        by_cases hc : payload.code = "Ok" <;>
          simp only [get_real_time_matrix, hc, if_pos, if_neg, reduceCtorEq,
            Except.error.injEq, if_true, if_false] at herr <;>
          simp [← herr]
    | httpStatusError status =>
        simp only [get_real_time_matrix, Except.error.injEq] at herr
        simp [← herr]
    | malformedPayload =>
        simp only [get_real_time_matrix, Except.error.injEq] at herr
        simp [← herr]
    | timeout =>
        simp only [get_real_time_matrix, Except.error.injEq] at herr
        simp [← herr]
  · cases resp with
    | success payload =>
        by_cases hc : payload.code = "Ok" <;>
          simp only [get_real_time_matrix, hc, if_pos, if_neg, reduceCtorEq,
            Except.error.injEq, if_true, if_false] at herr <;>
          simp [← herr]
    | httpStatusError status =>
        simp only [get_real_time_matrix, Except.error.injEq] at herr
        simp [← herr]
    | malformedPayload =>
        simp only [get_real_time_matrix, Except.error.injEq] at herr
        simp [← herr]
    | timeout =>
        simp only [get_real_time_matrix, Except.error.injEq] at herr
        simp [← herr]

/-- Witness for C3: a 429 from the provider propagates unchanged for any
search outcome and is distinct from `NoSolutionError`. -/
theorem provider_error_witness :
    (∀ search, solve_vrp exParadas (MatrixResponse.httpStatusError 429) search
        = Except.error (SolverError.mapboxHttp 429)) ∧
    (∀ msg, SolverError.mapboxHttp 429 ≠ SolverError.noSolution msg) ∧
    SolverError.mapboxHttp 429 ≠ SolverError.invalidModel :=
  provider_error_isolation exParadas (MatrixResponse.httpStatusError 429)
    (SolverError.mapboxHttp 429) rfl

/-- Claim C4: given a healthy provider, `solve_vrp` raises `NoSolutionError`
(with its fixed message) exactly when the underlying solve returns no
solution; this is the only error it can raise in that situation; and when a
solution is returned instead, every visit's cumulative time lies inside the
range posted for its node, so a window-violating schedule is never returned
in place of the error. -/
theorem no_feasible_route_exactly (paradas : List Parada) (resp : MatrixResponse)
    (matrix : List (List Int)) (search : Option RouteSolution)
    (hm : get_real_time_matrix paradas resp = Except.ok matrix)
    (hcontract : ∀ s, search = some s → FeasibleSolution (buildData paradas matrix) s) :
    (solve_vrp paradas resp search = Except.error (SolverError.noSolution noSolutionMsg)
        ↔ search = none) ∧
    (∀ e, solve_vrp paradas resp search = Except.error e
        → e = SolverError.noSolution noSolutionMsg) ∧
    (∀ s p, search = some s → p < s.route.length →
      (nodeWindow (buildData paradas matrix) (s.route.getD p 0)).1 ≤ s.cumul.getD p 0 ∧
      s.cumul.getD p 0 ≤ (nodeWindow (buildData paradas matrix) (s.route.getD p 0)).2) := by
  cases search with
  | none =>
    refine ⟨by simp [solve_vrp_none paradas resp matrix hm], ?_, ?_⟩
    · intro e he
      rw [solve_vrp_none paradas resp matrix hm] at he
      exact ((Except.error.injEq _ _).mp he).symm
    · intro t p ht
      exact absurd ht (by simp)
  | some s0 =>
    refine ⟨?_, ?_, ?_⟩
    · rw [solve_vrp_some paradas resp matrix s0 hm]; simp
    · intro e he
      rw [solve_vrp_some paradas resp matrix s0 hm] at he
      exact absurd he (by simp)
    · intro t p ht hp
      obtain rfl : s0 = t := Option.some.inj ht
      obtain ⟨hrl, hcl, hr0, hrange, hcov, hwin, hdom, htrans, hend⟩ := hcontract s0 rfl
      exact hwin p hp

/-- Witness for C4 on the concrete instance where the engine does return a
feasible assignment. -/
theorem no_feasible_route_witness :
    (solve_vrp exParadas exResp (some exSol)
        = Except.error (SolverError.noSolution noSolutionMsg) ↔ (some exSol) = none) ∧
    (∀ e, solve_vrp exParadas exResp (some exSol) = Except.error e
        → e = SolverError.noSolution noSolutionMsg) ∧
    (∀ s p, some exSol = some s → p < s.route.length →
      (nodeWindow exData (s.route.getD p 0)).1 ≤ s.cumul.getD p 0 ∧
      s.cumul.getD p 0 ≤ (nodeWindow exData (s.route.getD p 0)).2) :=
  no_feasible_route_exactly exParadas exResp exMatrix (some exSol) rfl
    (fun s hs => by cases hs; decide)

/-- Claim C5, counterexample: the model does not impose a minimum per-leg
slack of 900 seconds — the concrete feasible assignment `exSol` has slack
exactly 0 on its leg (the next cumulative value equals the previous one plus
the transit), so a lower bound of 900 on the slack is violated. -/
theorem minimum_slack_cex :
    FeasibleSolution exData exSol ∧
    exSol.cumul.getD 1 0
      = exSol.cumul.getD 0 0 +
        time_callback exData (exSol.route.getD 0 0) (exSol.route.getD 1 0) ∧
    ¬ (exSol.cumul.getD 0 0 +
        time_callback exData (exSol.route.getD 0 0) (exSol.route.getD 1 0) + 900
      ≤ exSol.cumul.getD 1 0) := by decide

/-- Claim C5 as amended: the routing model uses the arc evaluator
`cost(i, j) = M[i][j] + service_duration[i]` (service charged at the
departure node), and the cumulative-time dimension is bounded by a maximum
(not minimum) per-leg slack of 900 seconds and an absolute horizon of 86400
seconds: along every leg of a feasible assignment, departure plus matrix
travel is a lower bound on the next arrival, waiting beyond it is at most
900 s, and every arrival stays within the one-day horizon. -/
theorem arc_cost_and_dimension (paradas : List Parada) (matrix : List (List Int))
    (s : RouteSolution) (p : Nat)
    (hfeas : FeasibleSolution (buildData paradas matrix) s)
    (hp : p + 1 < s.route.length) :
    time_callback (buildData paradas matrix) (s.route.getD p 0) (s.route.getD (p + 1) 0)
      = (matrix.getD (s.route.getD p 0) []).getD (s.route.getD (p + 1) 0) 0
        + (buildData paradas matrix).service_times.getD (s.route.getD p 0) 0 ∧
    (s.cumul.getD p 0 + (buildData paradas matrix).service_times.getD (s.route.getD p 0) 0)
        + (matrix.getD (s.route.getD p 0) []).getD (s.route.getD (p + 1) 0) 0
      ≤ s.cumul.getD (p + 1) 0 ∧
    s.cumul.getD (p + 1) 0
      ≤ (s.cumul.getD p 0 + (buildData paradas matrix).service_times.getD (s.route.getD p 0) 0)
        + (matrix.getD (s.route.getD p 0) []).getD (s.route.getD (p + 1) 0) 0 + 900 ∧
    s.cumul.getD (p + 1) 0 ≤ 86400 := by
  obtain ⟨hrl, hcl, hr0, hrange, hcov, hwin, hdom, htrans, hend⟩ := hfeas
  have ht := htrans p (by omega) hp
  have hd := (hdom (p + 1) hp).2
  refine ⟨rfl, ?_, ?_, hd⟩
  · have := ht.1
    simp only [time_callback, buildData] at this ⊢
    omega
  · have := ht.2
    simp only [time_callback, buildData] at this ⊢
    omega

/-- Witness for C5's amended statement on the concrete instance. -/
theorem arc_cost_witness :
    time_callback exData (exSol.route.getD 0 0) (exSol.route.getD 1 0)
      = (exMatrix.getD (exSol.route.getD 0 0) []).getD (exSol.route.getD 1 0) 0
        + exData.service_times.getD (exSol.route.getD 0 0) 0 ∧
    (exSol.cumul.getD 0 0 + exData.service_times.getD (exSol.route.getD 0 0) 0)
        + (exMatrix.getD (exSol.route.getD 0 0) []).getD (exSol.route.getD 1 0) 0
      ≤ exSol.cumul.getD 1 0 ∧
    exSol.cumul.getD 1 0
      ≤ (exSol.cumul.getD 0 0 + exData.service_times.getD (exSol.route.getD 0 0) 0)
        + (exMatrix.getD (exSol.route.getD 0 0) []).getD (exSol.route.getD 1 0) 0 + 900 ∧
    exSol.cumul.getD 1 0 ≤ 86400 :=
  arc_cost_and_dimension exParadas exMatrix exSol 0 (by decide) (by decide)

/-- Claim C6: for every visit of a successful itinerary the reported
`travel_time_to_stop` equals the arrival minus the previous visit's
departure (the previous departure of the first visit taken as 0), that value
is never negative — clamping would be a no-op — and it is exactly the value
handed to the duration formatter. Requires the provider contract that matrix
entries are non-negative. -/
theorem travel_time_formula (paradas : List Parada) (resp : MatrixResponse)
    (matrix : List (List Int)) (s : RouteSolution) (res : VrpResult) (p : Nat)
    (hm : get_real_time_matrix paradas resp = Except.ok matrix)
    (hsolve : solve_vrp paradas resp (some s) = Except.ok res)
    (hfeas : FeasibleSolution (buildData paradas matrix) s)
    (hM : ∀ i j, 0 ≤ (matrix.getD i []).getD j 0)
    (hp : p < s.route.length) :
    ((itineraryRows (buildData paradas matrix) s).getD p default).travel
        = ((itineraryRows (buildData paradas matrix) s).getD p default).arrival -
          (if p = 0 then 0
           else ((itineraryRows (buildData paradas matrix) s).getD (p - 1) default).departure) ∧
    0 ≤ ((itineraryRows (buildData paradas matrix) s).getD p default).travel ∧
    (res.stops.getD p default).travel_time_to_stop
        = seconds_to_duration_str
            (((itineraryRows (buildData paradas matrix) s).getD p default).travel) := by
  obtain ⟨hrl, hcl, hr0, hrange, hcov, hwin, hdom, htrans, hend⟩ := hfeas
  have hpc : p < s.cumul.length := by omega
  have hrow := itineraryRowsAux_getD (buildData paradas matrix).service_times
    s.route s.cumul 0 p hp hpc
  have hplen : p < (itineraryRows (buildData paradas matrix) s).length := by
    unfold itineraryRows
    rw [itineraryRowsAux_length]
    omega
  have htv : ((itineraryRows (buildData paradas matrix) s).getD p default).travel
      = s.cumul.getD p 0 -
        (if p = 0 then 0
         else s.cumul.getD (p - 1) 0 +
           (buildData paradas matrix).service_times.getD (s.route.getD (p - 1) 0) 0) := by
    unfold itineraryRows
    rw [hrow]
  have harr : ((itineraryRows (buildData paradas matrix) s).getD p default).arrival
      = s.cumul.getD p 0 := by
    unfold itineraryRows
    rw [hrow]
  refine ⟨?_, ?_, ?_⟩
  · rw [htv, harr]
    cases p with
    | zero => simp
    | succ q =>
      have hq : q < s.route.length := by omega
      have hqrow := itineraryRowsAux_getD (buildData paradas matrix).service_times
        s.route s.cumul 0 q hq (by omega)
      have hdep : ((itineraryRows (buildData paradas matrix) s).getD q default).departure
          = s.cumul.getD q 0 +
            (buildData paradas matrix).service_times.getD (s.route.getD q 0) 0 := by
        unfold itineraryRows
        rw [hqrow]
      simp only [Nat.succ_ne_zero, if_neg, Nat.add_sub_cancel, hdep]
  · rw [htv]
    cases p with
    | zero =>
      have h0 := (hdom 0 hp).1
      simp only [if_pos]
      omega
    | succ q =>
      have ht := (htrans q (by omega) (by omega)).1
      have hMq := hM (s.route.getD q 0) (s.route.getD (q + 1) 0)
      simp only [time_callback, buildData] at ht
      simp only [Nat.succ_ne_zero, if_neg, Nat.add_sub_cancel, buildData, if_false]
      omega
  · rw [solve_vrp_some paradas resp matrix s hm] at hsolve
    have hres := (Except.ok.injEq _ _).mp hsolve.symm
    subst hres
    simp only
    rw [listGetD_map _ _ _ default _ hplen]

/-- Witness for C6 at the second visit of the concrete instance: travel 600 s
equals 32400 minus the previous departure 31800 and is non-negative. -/
theorem travel_time_witness :
    ((itineraryRows exData exSol).getD 1 default).travel
        = ((itineraryRows exData exSol).getD 1 default).arrival -
          (if (1 : Nat) = 0 then 0
           else ((itineraryRows exData exSol).getD 0 default).departure) ∧
    0 ≤ ((itineraryRows exData exSol).getD 1 default).travel ∧
    (exResult.stops.getD 1 default).travel_time_to_stop
        = seconds_to_duration_str (((itineraryRows exData exSol).getD 1 default).travel) :=
  travel_time_formula exParadas exResp exMatrix exSol exResult 1 rfl rfl
    (by decide) exMatrix_nonneg (by decide)

/-- Claim C7, counterexample: on the concrete instance the reported total
duration is 3000 s — the end index's cumulative value (the arrival back at
the depot after 600 s of return travel and 1800 s of service at the last
stop) minus the start's — while the cumulative time at the last visited node
minus the depot's is only 600 s; the tour is closed, and the return cost is
included, contradicting the open-tour reading. -/
theorem total_duration_cex :
    FeasibleSolution exData exSol ∧
    (solve_vrp exParadas exResp (some exSol)).map (fun r => r.total_duration_seconds)
      = Except.ok 3000 ∧
    exSol.cumul.getD (exSol.route.length - 1) 0 - exSol.cumul.getD 0 0 = 600 ∧
    (3000 : Int) ≠ 600 :=
  ⟨by decide, rfl, by decide, by decide⟩

/-- Claim C7 as amended: for every successful solve,
`total_duration_seconds` equals the cumulative time at the route's end index
— the arrival back at the depot, at least the last visited node's cumulative
time plus the return transit (final travel plus the last stop's service) —
minus the cumulative time at the depot start. -/
theorem total_duration_closed_tour (paradas : List Parada) (resp : MatrixResponse)
    (matrix : List (List Int)) (s : RouteSolution) (res : VrpResult)
    (hm : get_real_time_matrix paradas resp = Except.ok matrix)
    (hsolve : solve_vrp paradas resp (some s) = Except.ok res)
    (hfeas : FeasibleSolution (buildData paradas matrix) s)
    (hne : 0 < s.route.length) :
    res.total_duration_seconds = s.endCumul - s.cumul.getD 0 0 ∧
    s.cumul.getD (s.route.length - 1) 0 +
        time_callback (buildData paradas matrix) (s.route.getD (s.route.length - 1) 0) 0
      ≤ s.endCumul ∧
    res.total_duration_str = seconds_to_duration_str (s.endCumul - s.cumul.getD 0 0) := by
  obtain ⟨hrl, hcl, hr0, hrange, hcov, hwin, hdom, htrans, hend⟩ := hfeas
  rw [solve_vrp_some paradas resp matrix s hm] at hsolve
  have hres := (Except.ok.injEq _ _).mp hsolve.symm
  subst hres
  exact ⟨rfl, (hend hne).1, rfl⟩

/-- Witness for C7's amended statement on the concrete instance. -/
theorem total_duration_witness :
    exResult.total_duration_seconds = exSol.endCumul - exSol.cumul.getD 0 0 ∧
    exSol.cumul.getD (exSol.route.length - 1) 0 +
        time_callback exData (exSol.route.getD (exSol.route.length - 1) 0) 0
      ≤ exSol.endCumul ∧
    exResult.total_duration_str
      = seconds_to_duration_str (exSol.endCumul - exSol.cumul.getD 0 0) :=
  total_duration_closed_tour exParadas exResp exMatrix exSol exResult rfl rfl
    (by decide) (by decide)

/-- Claim C8: `seconds_to_duration_str` and `seconds_to_time_str` are pure
functions satisfying the quoted examples — 45 s renders as a seconds string,
7500 s as hours and zero-padded minutes, second 0 of the day as midnight in
12-hour form and second 43200 as noon — and in general durations under one
minute render as seconds, durations of an hour or more as hours with
two-digit minutes, the rest as whole minutes, while clock times in the
midnight hour and in the noon hour both display the hour 12. -/
theorem formatting_functions :
    seconds_to_duration_str 45 = "45 seg" ∧
    seconds_to_duration_str 7500 = "2 h 05 min" ∧
    seconds_to_time_str 0 = "12:00 AM" ∧
    seconds_to_time_str 43200 = "12:00 PM" ∧
    (∀ n : Int, n < 60 → seconds_to_duration_str n = toString n ++ " seg") ∧
    (∀ n : Int, 3600 ≤ n →
      seconds_to_duration_str n
        = toString (n / 3600) ++ " h " ++ pad2 ((n % 3600) / 60) ++ " min") ∧
    (∀ n : Int, 60 ≤ n → n < 3600 →
      seconds_to_duration_str n = toString (n / 60) ++ " min") ∧
    (∀ n : Int, 0 ≤ n → n < 3600 →
      seconds_to_time_str n = "12:" ++ pad2 (n / 60) ++ " AM") ∧
    (∀ n : Int, 43200 ≤ n → n < 46800 →
      seconds_to_time_str n = "12:" ++ pad2 ((n - 43200) / 60) ++ " PM") := by
  refine ⟨rfl, rfl, rfl, rfl, ?_, ?_, ?_, ?_, ?_⟩
  · intro n h
    simp only [seconds_to_duration_str, if_pos h]
  · intro n h
    have h1 : ¬ n < 60 := by omega
    have h2 : 0 < n / 3600 := by omega
    simp only [seconds_to_duration_str, if_neg h1, if_pos h2]
  · intro n h0 h1
    have h2 : ¬ n < 60 := by omega
    have h3 : n / 3600 = 0 := by omega
    have h4 : n % 3600 = n := by omega
    simp only [seconds_to_duration_str, if_neg h2, h3, h4]
    norm_num
  · intro n h0 h1
    have h3 : n / 3600 = 0 := by omega
    have h4 : n % 3600 = n := by omega
    simp only [seconds_to_time_str, h3, h4]
    norm_num
    have e : pad2 12 ++ ":" = ("12:" : String) := rfl
    rw [e, String.append_assoc ("12:" ++ pad2 (n / 60))]
    rfl
  · intro n h0 h1
    have h3 : n / 3600 = 12 := by omega
    have h4 : n % 3600 = n - 43200 := by omega
    simp only [seconds_to_time_str, h3, h4]
    norm_num
    have e : pad2 12 ++ ":" = ("12:" : String) := rfl
    rw [e, String.append_assoc ("12:" ++ pad2 ((n - 43200) / 60))]
    rfl

/-- Claim C9, counterexample: on the concrete instance the first visit's
arrival is 31800 s (08:50 AM), not the depot window's lower bound of 60 s —
the stop's 09:00 window opening and the 900-second slack cap force the start
to leave late, so the schedule does start later than the earliest moment the
depot window allows. -/
theorem depot_anchoring_cex :
    FeasibleSolution exData exSol ∧
    nodeWindow exData 0 = (60, 86340) ∧
    (solve_vrp exParadas exResp (some exSol)).map
        (fun r => (r.stops.getD 0 default).arrival_time)
      = Except.ok (seconds_to_time_str 31800) ∧
    exSol.cumul.getD 0 0 = 31800 ∧
    (31800 : Int) ≠ 60 :=
  ⟨by decide, by decide, rfl, by decide, by decide⟩

/-- Claim C9 as amended: for every successful solve the first visit's
arrival time lies within the depot's window — no earlier than its lower
bound, but possibly strictly later when downstream windows and the slack cap
force a later start — and the first itinerary entry renders exactly that
arrival. -/
theorem depot_window_bounds_first_arrival (paradas : List Parada) (resp : MatrixResponse)
    (matrix : List (List Int)) (s : RouteSolution) (res : VrpResult)
    (hm : get_real_time_matrix paradas resp = Except.ok matrix)
    (hsolve : solve_vrp paradas resp (some s) = Except.ok res)
    (hfeas : FeasibleSolution (buildData paradas matrix) s)
    (hne : 0 < s.route.length) :
    (nodeWindow (buildData paradas matrix) 0).1 ≤ s.cumul.getD 0 0 ∧
    s.cumul.getD 0 0 ≤ (nodeWindow (buildData paradas matrix) 0).2 ∧
    (res.stops.getD 0 default).arrival_time = seconds_to_time_str (s.cumul.getD 0 0) := by
  obtain ⟨hrl, hcl, hr0, hrange, hcov, hwin, hdom, htrans, hend⟩ := hfeas
  have hw := hwin 0 hne
  rw [hr0] at hw
  refine ⟨hw.1, hw.2, ?_⟩
  rw [solve_vrp_some paradas resp matrix s hm] at hsolve
  have hres := (Except.ok.injEq _ _).mp hsolve.symm
  subst hres
  have hplen : 0 < (itineraryRows (buildData paradas matrix) s).length := by
    unfold itineraryRows
    rw [itineraryRowsAux_length]
    omega
  have hrow := itineraryRowsAux_getD (buildData paradas matrix).service_times
    s.route s.cumul 0 0 hne (by omega)
  simp only
  rw [listGetD_map _ _ _ default _ hplen]
  unfold itineraryRows
  rw [hrow]

/-- Witness for C9's amended statement on the concrete instance. -/
theorem depot_window_witness :
    (nodeWindow exData 0).1 ≤ exSol.cumul.getD 0 0 ∧
    exSol.cumul.getD 0 0 ≤ (nodeWindow exData 0).2 ∧
    (exResult.stops.getD 0 default).arrival_time
      = seconds_to_time_str (exSol.cumul.getD 0 0) :=
  depot_window_bounds_first_arrival exParadas exResp exMatrix exSol exResult rfl rfl
    (by decide) (by decide)

/-- Claim C10: the synthetic depot built by `optimizar_ruta` has window
00:01 to 23:59 — 60 to 86340 seconds since midnight, not the fully open day
— and zero service duration, and it occupies index 0 of the stop list handed
to the solver, so the model's node 0 gets window (60, 86340) and service
time 0. -/
theorem depot_stop_construction (start_lat start_lng : Float) (destinos : List Parada)
    (matrix : List (List Int)) :
    time_to_seconds (parada_inicio start_lat start_lng).ventana_inicio = 60 ∧
    time_to_seconds (parada_inicio start_lat start_lng).ventana_fin = 86340 ∧
    (parada_inicio start_lat start_lng).tiempo_servicio_min * 60 = 0 ∧
    (paradas_totales (parada_inicio start_lat start_lng) destinos).getD 0 default
      = parada_inicio start_lat start_lng ∧
    (buildData (paradas_totales (parada_inicio start_lat start_lng) destinos)
        matrix).time_windows.getD 0 (0, 0) = (60, 86340) ∧
    (buildData (paradas_totales (parada_inicio start_lat start_lng) destinos)
        matrix).service_times.getD 0 1 = 0 :=
  ⟨rfl, rfl, rfl, rfl, rfl, rfl⟩
